import Mathlib

/-!
Verification of the matrix-notes-bot persistence core
(`storage.py`, `bot_commands.py`, `note.py`) against its specification.

The Python code is shallowly embedded:

* a `Note` object (`note.py`, class `Note`) keeps the fields
  `room_id`, `note_text`, `category`, `target_user` (the `client` and
  `store` references carry no data relevant to the claims);
* the SQL table `note (text, category, room_id, target_user)` is a list
  of `Row` records; `TEXT` columns that may be `NULL` are `Option String`,
  `room_id` is declared `NOT NULL` and is a plain `String`;
* the global dictionary `NOTES : Dict[Tuple[str, str], Note]`
  (`note.py`) is an association list keyed by `(room_id, note_text.upper())`;
  Python-dict insertion overwrites in place or appends a fresh key, and
  `dict.pop` removes the single binding of a key;
* fallible calls return `Option`/`Except`: a raised exception is `none`
  (or `Except.error`) and a normal return is `some`/`Except.ok`.
-/

set_option autoImplicit false

namespace MatrixNotesBot

/-- The `Note` entity of `note.py` (`Note.__init__` stores exactly these
data fields; `client`/`store` are object references with no data). -/
structure Note where
  room_id : String
  note_text : String
  category : String
  target_user : Option String
  deriving Repr, DecidableEq

/-- A row of the durable table
`note (text TEXT, category TEXT, room_id TEXT NOT NULL, target_user TEXT)`
(`storage.py`, `_initial_db_setup`).  Nullable `TEXT` columns are
`Option String`. -/
structure Row where
  text : Option String
  category : Option String
  room_id : String
  target_user : Option String
  deriving Repr, DecidableEq

/-- The in-memory `NOTES` dictionary of `note.py`: an association list
from `(room_id, upper-cased note text)` to `Note`. -/
abbrev NotesIndex : Type := List ((String × String) × Note)

/-- Python's `str.upper()` as used on note texts: character-wise
upper-casing (`Char.toUpper` maps ASCII lower case to upper case and
leaves other characters unchanged, which agrees with Python on the ASCII
texts at issue). -/
def pyUpper (s : String) : String := String.mk (s.data.map Char.toUpper)

/-- Dictionary lookup `NOTES.get(k)` / `k in NOTES`. -/
def lookupNote (idx : NotesIndex) (k : String × String) : Option Note :=
  match idx with
  | [] => none
  | e :: es => if e.1 = k then some e.2 else lookupNote es k

/-- Dictionary assignment `NOTES[k] = n`: overwrite an existing binding in
place, otherwise append the new binding. -/
def putNote (idx : NotesIndex) (k : String × String) (n : Note) : NotesIndex :=
  match idx with
  | [] => [(k, n)]
  | e :: es => if e.1 = k then (k, n) :: es else e :: putNote es k n

/-- Dictionary removal `NOTES.pop(k, None)`: drop the first (for a dict:
the only) binding of `k`; no-op when `k` is absent. -/
def popNote (idx : NotesIndex) (k : String × String) : NotesIndex :=
  match idx with
  | [] => []
  | e :: es => if e.1 = k then es else e :: popNote es k

/-- `dict.update`: insert every binding of `d` into `idx`, in order. -/
def updateIndex (idx d : NotesIndex) : NotesIndex :=
  d.foldl (fun acc e => putNote acc e.1 e.2) idx

/-- The values view `NOTES.values()`. -/
def indexValues (idx : NotesIndex) : List Note :=
  idx.map (fun e => e.2)

/-- `Storage.store_note` (`storage.py`): `INSERT INTO note (text, category,
room_id, target_user) VALUES (?, ?, ?, ?)` with the note's fields.  The
unique index `note_room_id_text ON note(room_id, text)` makes the insert
raise an integrity error (`none`) exactly when some existing row has the
same `room_id` and the same non-NULL `text`. -/
def store_note (rows : List Row) (n : Note) : Option (List Row) :=
  if rows.any (fun r => r.room_id == n.room_id && r.text == some n.note_text) then
    none
  else
    some (rows ++ [{ text := some n.note_text, category := some n.category,
                     room_id := n.room_id, target_user := n.target_user }])

/-- Runtime errors named by the specification's error taxonomy. -/
inductive NoteError where
  | duplicateNote
  | noteNotFound
  deriving Repr, DecidableEq

/-- `Storage.delete_note` (`storage.py`): `DELETE FROM note WHERE
room_id = ? AND text = ?`.  The function executes the statement and
returns; it inspects no row count and raises nothing, so the result is
always `Except.ok` with the matching rows removed. -/
def delete_note (rows : List Row) (room_id note_text : String) :
    Except NoteError (List Row) :=
  Except.ok (rows.filter (fun r => !(r.room_id == room_id && r.text == some note_text)))

/-- The mutable state the command layer acts on: the in-memory `NOTES`
index and the durable `note` table. -/
structure BotState where
  notes : NotesIndex
  rows : List Row
  deriving DecidableEq

/-- Outcome of the create command `Command._note`. -/
inductive CreateOutcome where
  /-- The note was inserted and confirmed. -/
  | created
  /-- The index already held the key; the command replied
  "This note already exists" and returned. -/
  | duplicate
  /-- `store_note` raised (unique-constraint violation); the exception
  propagates out of `_note` uncaught. -/
  | storeError
  deriving Repr, DecidableEq

/-- `Command._note` (`bot_commands.py`): check
`(room_id, note_text.upper()) in NOTES`; if present reply and return.
Otherwise build the `Note`, assign
`NOTES[(room_id, note_text.upper())] = note` FIRST and call
`store.store_note(note)` SECOND; a raise from `store_note` leaves the
fresh index entry behind. -/
def createNote (s : BotState) (room_id note_text category : String)
    (target : Option String) : BotState × CreateOutcome :=
  if (lookupNote s.notes (room_id, pyUpper note_text)).isSome then
    (s, CreateOutcome.duplicate)
  else
    let note : Note :=
      { room_id := room_id, note_text := note_text,
        category := category, target_user := target }
    let notes' := putNote s.notes (room_id, pyUpper note_text) note
    match store_note s.rows note with
    | some rows' => ({ notes := notes', rows := rows' }, CreateOutcome.created)
    | none => ({ notes := notes', rows := s.rows }, CreateOutcome.storeError)

/-- The index-side lookup `NOTES.get((room_id, note_text.upper()))`
performed by `Command._delete_note` (`bot_commands.py`, line 243): the
text is upper-cased for the lookup only. -/
def getNote (idx : NotesIndex) (room_id note_text : String) : Option Note :=
  lookupNote idx (room_id, pyUpper note_text)

/-- `Note.cancel` (`note.py`): pop
`(self.room_id, self.note_text.upper())` from `NOTES`, then call
`store.delete_note(self.room_id, self.note_text)`. -/
def cancelNote (s : BotState) (n : Note) : BotState :=
  { notes := popNote s.notes (n.room_id, pyUpper n.note_text),
    rows := match delete_note s.rows n.room_id n.note_text with
            | Except.ok rows' => rows'
            | Except.error _ => s.rows }

/-- Outcome of the delete command `Command._delete_note`. -/
inductive DeleteCmdOutcome where
  /-- A note was found in the index, cancelled, and "Note deleted." sent. -/
  | deleted
  /-- No index entry: "Unknown note ..." sent, state untouched. -/
  | unknown
  /-- The joined argument text was empty: `CommandSyntaxError` raised
  before anything else happens. -/
  | syntaxError
  deriving Repr, DecidableEq

/-- `Command._delete_note` (`bot_commands.py`): when the joined argument
text is empty (`if not note_text`), raise `CommandSyntaxError` before
anything else; otherwise look the note up in the in-memory index under
the upper-cased text; when present, `note.cancel()`; when absent, reply
"Unknown note" without consulting the store. -/
def deleteNoteCmd (s : BotState) (room_id note_text : String) :
    BotState × DeleteCmdOutcome :=
  if note_text = "" then
    (s, DeleteCmdOutcome.syntaxError)
  else
    match getNote s.notes room_id note_text with
    | some n => (cancelNote s n, DeleteCmdOutcome.deleted)
    | none => (s, DeleteCmdOutcome.unknown)

/-- The schema version declared at the top of `storage.py`:
`latest_migration_version = 3`. -/
def latest_migration_version : Nat := 3

/-- The slice of database state the migration code touches: the `note`
table, the `note_temp` table (each `none` when absent), whether the
unique index `note_room_id_text` exists, and the single
`migration_version` row (`none` when the table/row is absent). -/
structure DbState where
  note : Option (List Row)
  note_temp : Option (List Row)
  note_index : Bool
  version : Option Nat
  deriving Repr, DecidableEq

/-- Two rows collide under the unique index `note_room_id_text`
when their `room_id`s are equal and their `text`s are equal and
non-NULL (SQL unique indexes treat NULLs as distinct). -/
def rowsConflict (a b : Row) : Bool :=
  a.room_id == b.room_id && a.text == b.text && a.text.isSome

/-- Whether some pair of rows collides under `note_room_id_text`;
`CREATE UNIQUE INDEX` fails on such data. -/
def hasDupKey : List Row → Bool
  | [] => false
  | r :: rs => rs.any (rowsConflict r) || hasDupKey rs

/-- The v0 → v1 migration of `Storage._run_db_migrations` (`storage.py`),
statement by statement:
`ALTER TABLE note RENAME TO note_temp`; `CREATE TABLE note (text,
category, room_id, target_user)`; `INSERT INTO note (text, category,
room_id, target_user) SELECT text, category, room_id, target_user FROM
note_temp`; `DROP INDEX note_room_id_text`; `CREATE UNIQUE INDEX
note_room_id_text ON note(room_id, text)`; `DROP TABLE note_temp`;
`UPDATE migration_version SET version = 1`.  A statement that
references a missing table, or an index creation over colliding rows,
raises (`none`). -/
def migrate_v0_to_v1 (s : DbState) : Option DbState := do
  let rows ← s.note
  let s1 : DbState := { s with note := none, note_temp := some rows }
  let s2 : DbState := { s1 with note := some [] }
  let temp ← s2.note_temp
  let cur ← s2.note
  let s3 : DbState :=
    { s2 with note := some (cur ++ temp.map (fun r =>
        { text := r.text, category := r.category,
          room_id := r.room_id, target_user := r.target_user })) }
  let s4 : DbState := { s3 with note_index := false }
  let newRows ← s4.note
  if hasDupKey newRows then
    none
  else
    let s5 : DbState := { s4 with note_index := true }
    let s6 : DbState := { s5 with note_temp := none }
    some { s6 with version := some 1 }

/-- `Storage._run_db_migrations` (`storage.py`): the only migration block
present is `if current_migration_version < 1: ...`; no later migration
steps exist in the function. -/
def run_db_migrations (current_migration_version : Nat) (s : DbState) :
    Option DbState :=
  if current_migration_version < 1 then migrate_v0_to_v1 s else some s

/-- The tuple returned for one row by the startup `SELECT text, category,
room_id, target_user FROM note` of `Storage._load_notes`: exactly four
cells, in the declared column order. -/
def rowCells (r : Row) : List (Option String) :=
  [r.text, r.category, some r.room_id, r.target_user]

/-- The row-to-Note mapping in the body of `Storage._load_notes`
(`storage.py` lines 211–225), by position:
`note_text = row[0]`; `category = row[1] if row[1] else None`;
`room_id = row[5]`; `target_user = row[6]`; then
`notes[(room_id, note_text.upper())] = Note(client=..., store=...,
note_text=note_text, room_id=room_id, target_user=target_user)`.
A positional access past the end of the tuple raises `IndexError`
(`none`); and the `Note(...)` call itself omits the required positional
argument `category` of `Note.__init__`, so even on a tuple long enough it
raises `TypeError` before any entry is produced. -/
def loadRowEntry (cells : List (Option String)) :
    Option ((String × String) × Note) := do
  let _note_text ← cells.get? 0
  let _category ← cells.get? 1
  let _room_id ← cells.get? 5
  let _target_user ← cells.get? 6
  none

/-- The loop of `Storage._load_notes`: fold the row-to-Note mapping over
the fetched rows, building the local `notes` dictionary; a raise from any
row aborts the whole call (`none`). -/
def load_notes_go : List Row → NotesIndex → Option NotesIndex
  | [], acc => some acc
  | r :: rs, acc =>
    match loadRowEntry (rowCells r) with
    | none => none
    | some e => load_notes_go rs (putNote acc e.1 e.2)

/-- `Storage._load_notes` (`storage.py`): fetch all rows and build the
`(room_id, upper-cased text) ↦ Note` dictionary. -/
def load_notes (rows : List Row) : Option NotesIndex :=
  load_notes_go rows []

/-- The key-shape invariant of the `NOTES` dictionary: every binding maps
the key `(note.room_id, note.note_text.upper())` to its note. -/
def indexInvariant (idx : NotesIndex) : Prop :=
  ∀ e ∈ idx, e.1 = (e.2.room_id, pyUpper e.2.note_text)

/-- `Command._list_notes` (`bot_commands.py`): iterate `NOTES.values()`,
skip a note when a non-empty category argument differs from the note's
category (`if cat and not cat == note.category`), and skip notes of other
rooms (`if note.room_id != self.room.room_id`).  This is the list of
notes that make it into the reply. -/
def listNotesFilter (idx : NotesIndex) (room_id cat : String) : List Note :=
  (indexValues idx).filter
    (fun n => !(cat != "" && cat != n.category) && !(n.room_id != room_id))

/-! ## Helper lemmas -/

theorem lookupNote_putNote_self (idx : NotesIndex) (k : String × String) (n : Note) :
    lookupNote (putNote idx k n) k = some n := by
  induction idx with
  | nil => simp [putNote, lookupNote]
  | cons e es ih =>
    unfold putNote
    by_cases h : e.1 = k
    · simp [h, lookupNote]
    · simp [h, lookupNote, ih]

theorem indexInvariant_putNote (idx : NotesIndex) (n : Note)
    (hidx : indexInvariant idx) :
    indexInvariant (putNote idx (n.room_id, pyUpper n.note_text) n) := by
  induction idx with
  | nil =>
    intro e he
    simp only [putNote, List.mem_singleton] at he
    subst he
    rfl
  | cons a as ih =>
    have htail : indexInvariant as := fun x hx => hidx x (List.mem_cons_of_mem _ hx)
    intro e he
    unfold putNote at he
    split at he
    · rcases List.mem_cons.mp he with he | he
      · subst he; rfl
      · exact hidx e (List.mem_cons_of_mem _ he)
    · rcases List.mem_cons.mp he with he | he
      · subst he; exact hidx e (List.mem_cons_self _ _)
      · exact ih htail e he

theorem indexInvariant_popNote (idx : NotesIndex) (k : String × String)
    (hidx : indexInvariant idx) : indexInvariant (popNote idx k) := by
  induction idx with
  | nil => intro e he; cases he
  | cons a as ih =>
    have htail : indexInvariant as := fun x hx => hidx x (List.mem_cons_of_mem _ hx)
    intro e he
    unfold popNote at he
    split at he
    · exact htail e he
    · rcases List.mem_cons.mp he with he | he
      · subst he; exact hidx e (List.mem_cons_self _ _)
      · exact ih htail e he

theorem indexInvariant_updateIndex (d : NotesIndex) :
    ∀ idx : NotesIndex, indexInvariant idx → indexInvariant d →
      indexInvariant (updateIndex idx d) := by
  induction d with
  | nil => intro idx hidx _; exact hidx
  | cons a as ih =>
    intro idx hidx hd
    have ha := hd a (List.mem_cons_self a as)
    have htail : indexInvariant as := fun x hx => hd x (List.mem_cons_of_mem a hx)
    have hstep : indexInvariant (putNote idx a.1 a.2) := by
      rw [ha]
      exact indexInvariant_putNote idx a.2 hidx
    exact ih (putNote idx a.1 a.2) hstep htail

theorem loadRowEntry_eq_none (cells : List (Option String)) :
    loadRowEntry cells = none := by
  unfold loadRowEntry
  cases cells.get? 0 <;> cases cells.get? 1 <;> cases cells.get? 5 <;>
    cases cells.get? 6 <;> rfl

theorem load_notes_cons (r : Row) (rs : List Row) :
    load_notes (r :: rs) = none := by
  unfold load_notes load_notes_go
  rw [loadRowEntry_eq_none]

theorem load_notes_invariant (rows : List Row) (d : NotesIndex)
    (h : load_notes rows = some d) : indexInvariant d := by
  cases rows with
  | nil =>
    have hd : d = [] := by
      simpa [load_notes, load_notes_go] using h.symm
    subst hd
    intro e he
    cases he
  | cons r rs =>
    rw [load_notes_cons] at h
    cases h

theorem createNote_not_duplicate_notes (s : BotState)
    (room_id note_text category : String) (target : Option String)
    (h : (createNote s room_id note_text category target).2 ≠ CreateOutcome.duplicate) :
    (createNote s room_id note_text category target).1.notes =
      putNote s.notes (room_id, pyUpper note_text)
        { room_id := room_id, note_text := note_text,
          category := category, target_user := target } := by
  unfold createNote at h ⊢
  cases hl : lookupNote s.notes (room_id, pyUpper note_text) with
  | some v => exact absurd (by simp [hl]) h
  | none =>
    cases hst : store_note s.rows
        { room_id := room_id, note_text := note_text,
          category := category, target_user := target } <;>
      simp [hl, hst]

theorem createNote_duplicate_of_lookup (s : BotState)
    (room_id note_text category : String) (target : Option String)
    (h : (lookupNote s.notes (room_id, pyUpper note_text)).isSome) :
    createNote s room_id note_text category target = (s, CreateOutcome.duplicate) := by
  unfold createNote
  simp [h]

/-! ## Claims -/

/-- **C10**: every key of the in-memory `NOTES` index equals the pair
`(note.room_id, upper(note.note_text))` of the note it maps to, and each
of the three mutating operations — seeding the index with the dictionary
produced by `_load_notes` (`NOTES.update`), creating through
`Command._note`, and `Note.cancel` — preserves this invariant; moreover
`cancel` removes precisely the key computed from the note's own
`room_id` and upper-cased text. -/
theorem notes_index_key_invariant (idx d : NotesIndex) (rows : List Row)
    (s : BotState) (room_id note_text category : String)
    (target : Option String) (n : Note)
    (hidx : indexInvariant idx) (hs : indexInvariant s.notes)
    (hload : load_notes rows = some d) :
    indexInvariant (updateIndex idx d) ∧
    indexInvariant (createNote s room_id note_text category target).1.notes ∧
    indexInvariant (cancelNote s n).notes ∧
    (cancelNote s n).notes = popNote s.notes (n.room_id, pyUpper n.note_text) := by
  refine ⟨indexInvariant_updateIndex d idx hidx (load_notes_invariant rows d hload),
    ?_, indexInvariant_popNote s.notes _ hs, rfl⟩
  by_cases h : (createNote s room_id note_text category target).2 = CreateOutcome.duplicate
  · have hstate : (createNote s room_id note_text category target).1 = s := by
      unfold createNote at h ⊢
      cases hl : lookupNote s.notes (room_id, pyUpper note_text) with
      | some v => simp [hl]
      | none =>
        exfalso
        cases hst : store_note s.rows
            { room_id := room_id, note_text := note_text,
              category := category, target_user := target } <;>
          simp [hl, hst] at h
    rw [hstate]
    exact hs
  · rw [createNote_not_duplicate_notes s room_id note_text category target h]
    exact indexInvariant_putNote s.notes
      { room_id := room_id, note_text := note_text,
        category := category, target_user := target } hs

/-- Witness for `notes_index_key_invariant` at a concrete state. -/
theorem notes_index_key_invariant_witness :
    indexInvariant (updateIndex [] []) ∧
    indexInvariant (createNote ⟨[], []⟩ "R1" "Buy milk" "general" none).1.notes ∧
    indexInvariant (cancelNote ⟨[], []⟩ ⟨"R1", "Buy milk", "general", none⟩).notes ∧
    (cancelNote ⟨[], []⟩ ⟨"R1", "Buy milk", "general", none⟩).notes =
      popNote ([] : NotesIndex) ("R1", pyUpper "Buy milk") :=
  notes_index_key_invariant [] [] [] ⟨[], []⟩ "R1" "Buy milk" "general" none
    ⟨"R1", "Buy milk", "general", none⟩
    (fun e he => absurd he (List.not_mem_nil e))
    (fun e he => absurd he (List.not_mem_nil e))
    rfl

/-- **C6**: when the index already holds the key
`(room_id, upper(note_text))`, `Command._note` reports the duplicate
outcome and returns the state unchanged — in particular the durable rows
are untouched, since the duplicate branch returns before the store is
reached. -/
theorem create_duplicate_skips_store (s : BotState)
    (room_id note_text category : String) (target : Option String)
    (h : (lookupNote s.notes (room_id, pyUpper note_text)).isSome) :
    createNote s room_id note_text category target = (s, CreateOutcome.duplicate) :=
  createNote_duplicate_of_lookup s room_id note_text category target h

/-- Witness for `create_duplicate_skips_store` at a concrete state. -/
theorem create_duplicate_skips_store_witness :
    (lookupNote
        [(("R1", "BUY MILK"),
          ⟨"R1", "Buy milk", "general", none⟩)] ("R1", pyUpper "Buy milk")).isSome ∧
    createNote
        ⟨[(("R1", "BUY MILK"), ⟨"R1", "Buy milk", "general", none⟩)],
         [⟨some "Buy milk", some "general", "R1", none⟩]⟩
        "R1" "Buy milk" "general" none =
      (⟨[(("R1", "BUY MILK"), ⟨"R1", "Buy milk", "general", none⟩)],
        [⟨some "Buy milk", some "general", "R1", none⟩]⟩,
       CreateOutcome.duplicate) :=
  ⟨by decide,
   create_duplicate_skips_store
     ⟨[(("R1", "BUY MILK"), ⟨"R1", "Buy milk", "general", none⟩)],
      [⟨some "Buy milk", some "general", "R1", none⟩]⟩
     "R1" "Buy milk" "general" none (by decide)⟩

/-- **C5**: after a create of text `T` in room `R` succeeds, a second
create in `R` of any text `T'` with `upper(T') = upper(T)` reports the
duplicate outcome and leaves the state (index and durable rows)
unchanged: no second note is created. -/
theorem create_uniqueness (s : BotState) (R T T' c c' : String)
    (u u' : Option String)
    (hT : pyUpper T' = pyUpper T)
    (hc : (createNote s R T c u).2 = CreateOutcome.created) :
    createNote (createNote s R T c u).1 R T' c' u' =
      ((createNote s R T c u).1, CreateOutcome.duplicate) := by
  have hnotes := createNote_not_duplicate_notes s R T c u (by rw [hc]; intro h; cases h)
  have hlk : (lookupNote (createNote s R T c u).1.notes (R, pyUpper T')).isSome := by
    rw [hT, hnotes, lookupNote_putNote_self]
    rfl
  exact createNote_duplicate_of_lookup (createNote s R T c u).1 R T' c' u' hlk

/-- Witness for `create_uniqueness`: create "Buy milk", then creating
"BUY MILK" in the same room is rejected as a duplicate. -/
theorem create_uniqueness_witness :
    pyUpper "BUY MILK" = pyUpper "Buy milk" ∧
    (createNote ⟨[], []⟩ "R1" "Buy milk" "shopping" (some "U1")).2 =
      CreateOutcome.created ∧
    createNote (createNote ⟨[], []⟩ "R1" "Buy milk" "shopping" (some "U1")).1
        "R1" "BUY MILK" "shopping" (some "U2") =
      ((createNote ⟨[], []⟩ "R1" "Buy milk" "shopping" (some "U1")).1,
       CreateOutcome.duplicate) :=
  ⟨by decide, by decide,
   create_uniqueness ⟨[], []⟩ "R1" "Buy milk" "BUY MILK" "shopping" "shopping"
     (some "U1") (some "U2") (by decide) (by decide)⟩

/-- **C7**: the index lookup used by the commands upper-cases the text
for the key only and returns the stored note with its original display
casing: after a successful create of text `T`, a `get` with any `T'`
that upper-cases to the same key returns the note whose `note_text` is
the original `T`. -/
theorem get_normalizes_lookup_preserves_casing (s : BotState)
    (R T T' c : String) (u : Option String)
    (hT : pyUpper T' = pyUpper T)
    (hc : (createNote s R T c u).2 = CreateOutcome.created) :
    getNote (createNote s R T c u).1.notes R T' =
      some { room_id := R, note_text := T, category := c, target_user := u } := by
  have hnotes := createNote_not_duplicate_notes s R T c u (by rw [hc]; intro h; cases h)
  unfold getNote
  rw [hT, hnotes, lookupNote_putNote_self]

/-- Witness for `get_normalizes_lookup_preserves_casing`: the
specification's scenario 1 — create `("R1", "Buy milk", "shopping",
"U1")`, then `get ("R1", "buy milk")` returns the note with text
"Buy milk". -/
theorem get_normalizes_lookup_preserves_casing_witness :
    pyUpper "buy milk" = pyUpper "Buy milk" ∧
    (createNote ⟨[], []⟩ "R1" "Buy milk" "shopping" (some "U1")).2 =
      CreateOutcome.created ∧
    getNote (createNote ⟨[], []⟩ "R1" "Buy milk" "shopping" (some "U1")).1.notes
        "R1" "buy milk" =
      some { room_id := "R1", note_text := "Buy milk", category := "shopping",
             target_user := some "U1" } :=
  ⟨by decide, by decide,
   get_normalizes_lookup_preserves_casing ⟨[], []⟩ "R1" "Buy milk" "buy milk"
     "shopping" (some "U1") (by decide) (by decide)⟩

/-- **C3, counterexample**: with an empty index but a durable row
`("R1", "Buy milk")` already present (the race the claim describes), the
create orchestration hits the store failure — yet the new note IS in the
index afterwards, because `Command._note` assigns
`NOTES[(room_id, note_text.upper())]` before calling `store_note`.  This
refutes "if the Store insert fails, the Index does not contain the new
note". -/
theorem create_store_failure_keeps_index_entry_cex :
    (createNote ⟨[], [⟨some "Buy milk", some "general", "R1", none⟩]⟩
        "R1" "Buy milk" "general" none).2 = CreateOutcome.storeError ∧
    lookupNote (createNote ⟨[], [⟨some "Buy milk", some "general", "R1", none⟩]⟩
        "R1" "Buy milk" "general" none).1.notes ("R1", "BUY MILK") =
      some ⟨"R1", "Buy milk", "general", none⟩ := by
  decide

/-- **C3, amended**: in the create orchestration, when the key is absent
from the Index, the Index entry is added first and the Store insert is
performed second; if the Store insert fails (duplicate-key violation),
the Index still contains the new note while the durable rows are
unchanged. -/
theorem create_index_put_precedes_store (s : BotState)
    (R T c : String) (u : Option String)
    (habs : lookupNote s.notes (R, pyUpper T) = none) :
    lookupNote (createNote s R T c u).1.notes (R, pyUpper T) =
      some { room_id := R, note_text := T, category := c, target_user := u } ∧
    ((createNote s R T c u).2 = CreateOutcome.storeError →
      (createNote s R T c u).1.rows = s.rows) := by
  have hnd : (createNote s R T c u).2 ≠ CreateOutcome.duplicate := by
    unfold createNote
    cases hst : store_note s.rows
        { room_id := R, note_text := T, category := c, target_user := u } <;>
      simp [habs, hst]
  refine ⟨by rw [createNote_not_duplicate_notes s R T c u hnd, lookupNote_putNote_self], ?_⟩
  intro herr
  unfold createNote at herr ⊢
  cases hst : store_note s.rows
      { room_id := R, note_text := T, category := c, target_user := u } with
  | some rows' => simp [habs, hst] at herr
  | none => simp [habs, hst]

/-- Witness for `create_index_put_precedes_store` at the concrete racy
state of the counterexample. -/
theorem create_index_put_precedes_store_witness :
    lookupNote ([] : NotesIndex) ("R1", pyUpper "Buy milk") = none ∧
    (lookupNote (createNote ⟨[], [⟨some "Buy milk", some "general", "R1", none⟩]⟩
        "R1" "Buy milk" "general" none).1.notes ("R1", pyUpper "Buy milk") =
      some { room_id := "R1", note_text := "Buy milk", category := "general",
             target_user := none } ∧
    ((createNote ⟨[], [⟨some "Buy milk", some "general", "R1", none⟩]⟩
        "R1" "Buy milk" "general" none).2 = CreateOutcome.storeError →
      (createNote ⟨[], [⟨some "Buy milk", some "general", "R1", none⟩]⟩
        "R1" "Buy milk" "general" none).1.rows =
        (⟨[], [⟨some "Buy milk", some "general", "R1", none⟩]⟩ : BotState).rows)) :=
  ⟨by decide,
   create_index_put_precedes_store
     ⟨[], [⟨some "Buy milk", some "general", "R1", none⟩]⟩
     "R1" "Buy milk" "general" none (by decide)⟩

/-- **C8**: a note makes it into the `listnotes` reply for room `R` and
category argument `cat` exactly when it is one of the active notes (a
value of the index), its `room_id` equals `R`, and — when a category
argument was supplied (non-empty, since `cat` is the space-join of the
remaining arguments and an absent argument yields `""`) — its `category`
equals `cat` under case-sensitive string comparison.  In particular notes
of any other room never appear. -/
theorem list_notes_room_category_exact (idx : NotesIndex) (R cat : String)
    (n : Note) :
    n ∈ listNotesFilter idx R cat ↔
      n ∈ indexValues idx ∧ n.room_id = R ∧ (cat = "" ∨ n.category = cat) := by
  unfold listNotesFilter
  rw [List.mem_filter]
  simp only [Bool.and_eq_true, Bool.not_eq_true', bne_eq_false_iff_eq,
    Bool.and_eq_false_iff, bne, Bool.not_eq_false', beq_iff_eq]
  constructor
  · rintro ⟨hm, ⟨hcat | hcat, hroom⟩⟩
    · exact ⟨hm, hroom, Or.inl hcat⟩
    · exact ⟨hm, hroom, Or.inr hcat.symm⟩
  · rintro ⟨hm, hroom, hcat | hcat⟩
    · exact ⟨hm, Or.inl hcat, hroom⟩
    · exact ⟨hm, Or.inr hcat.symm, hroom⟩

/-- **C4, counterexample**: against an empty store (so no row matches
room "R1" and text "Buy milk"), `Storage.delete_note` does NOT fail with
`NoteNotFoundError`: it returns success with the store unchanged, because
the function never inspects the affected-row count. -/
theorem delete_note_missing_key_no_error_cex :
    delete_note ([] : List Row) "R1" "Buy milk" ≠
      Except.error NoteError.noteNotFound ∧
    delete_note ([] : List Row) "R1" "Buy milk" = Except.ok ([] : List Row) :=
  ⟨(fun h => nomatch h), rfl⟩

/-- **C4, amended**: `Storage.delete_note` never fails: when no stored
row matches `(room_id, note_text)` exactly it succeeds and leaves the
rows unchanged (zero affected rows is not checked and
`NoteNotFoundError` is never raised); for a non-empty `note_text` (an
empty one raises `CommandSyntaxError` before any lookup), the
user-visible "unknown note" outcome is produced one layer up, by
`Command._delete_note`, from the in-memory index lookup — when the index
lacks the key, the command reports `unknown` and leaves all state
untouched, without calling the store. -/
theorem delete_note_never_fails_index_detects_missing (rows : List Row)
    (idx : NotesIndex) (R T : String)
    (hT : T ≠ "")
    (hrows : ∀ r ∈ rows, (r.room_id == R && r.text == some T) = false)
    (hidx : lookupNote idx (R, pyUpper T) = none) :
    delete_note rows R T = Except.ok rows ∧
    deleteNoteCmd ⟨idx, rows⟩ R T = (⟨idx, rows⟩, DeleteCmdOutcome.unknown) := by
  constructor
  · unfold delete_note
    congr 1
    refine List.filter_eq_self.mpr (fun r hr => ?_)
    rw [hrows r hr]
    rfl
  · unfold deleteNoteCmd
    rw [if_neg hT]
    unfold getNote
    rw [hidx]

/-- Witness for `delete_note_never_fails_index_detects_missing`: one
non-matching row, empty index, non-empty text. -/
theorem delete_note_never_fails_index_detects_missing_witness :
    ("Buy milk" : String) ≠ "" ∧
    (∀ r ∈ [(⟨some "Other note", some "general", "R1", none⟩ : Row)],
      (r.room_id == "R1" && r.text == some "Buy milk") = false) ∧
    lookupNote ([] : NotesIndex) ("R1", pyUpper "Buy milk") = none ∧
    (delete_note [(⟨some "Other note", some "general", "R1", none⟩ : Row)]
        "R1" "Buy milk" =
      Except.ok [(⟨some "Other note", some "general", "R1", none⟩ : Row)] ∧
    deleteNoteCmd ⟨[], [⟨some "Other note", some "general", "R1", none⟩]⟩
        "R1" "Buy milk" =
      (⟨[], [⟨some "Other note", some "general", "R1", none⟩]⟩,
       DeleteCmdOutcome.unknown)) :=
  ⟨by decide, by decide, by decide,
   delete_note_never_fails_index_detects_missing
     [⟨some "Other note", some "general", "R1", none⟩] [] "R1" "Buy milk"
     (by decide) (by decide) (by decide)⟩

/-- **C9**: starting from a schema-version-0 database whose `note` table
holds any rows admitted by the v0 unique index (no two rows share a
`room_id` and a non-NULL `text`), running the migration manager keeps
every row with identical `text`, `category`, `room_id` and `target_user`
values (same multiset, even the same order) and ends with the unique
index `note_room_id_text` on `(room_id, text)` recreated. -/
theorem migration_preserves_rows (rows : List Row)
    (h : hasDupKey rows = false) :
    run_db_migrations 0
        { note := some rows, note_temp := none, note_index := true, version := some 0 } =
      some { note := some rows, note_temp := none, note_index := true,
             version := some 1 } := by
  have hmap : rows.map (fun r : Row =>
      ({ text := r.text, category := r.category, room_id := r.room_id,
         target_user := r.target_user } : Row)) = rows := List.map_id' rows
  unfold run_db_migrations migrate_v0_to_v1
  simp [hmap, h]

/-- Witness for `migration_preserves_rows` on a two-row table. -/
theorem migration_preserves_rows_witness :
    hasDupKey [⟨some "alpha", some "general", "R1", none⟩,
               ⟨some "beta", none, "R2", some "U2"⟩] = false ∧
    run_db_migrations 0
        { note := some [⟨some "alpha", some "general", "R1", none⟩,
                        ⟨some "beta", none, "R2", some "U2"⟩],
          note_temp := none, note_index := true, version := some 0 } =
      some { note := some [⟨some "alpha", some "general", "R1", none⟩,
                           ⟨some "beta", none, "R2", some "U2"⟩],
             note_temp := none, note_index := true, version := some 1 } :=
  ⟨by decide,
   migration_preserves_rows
     [⟨some "alpha", some "general", "R1", none⟩,
      ⟨some "beta", none, "R2", some "U2"⟩] (by decide)⟩

/-- **C2**: `Storage._run_db_migrations` only contains the
`current_migration_version < 1` step, although
`latest_migration_version = 3`: from stored version 0 it stops at
version 1, and from stored version 2 (also `< 3`) it changes nothing —
so after running, the stored version does NOT equal the latest defined
version, contradicting the function's own docstring ("Migrates the
database to the `latest_migration_version`"). -/
theorem migrations_stop_short_of_latest :
    run_db_migrations 0
        { note := some [], note_temp := none, note_index := true, version := some 0 } =
      some { note := some [], note_temp := none, note_index := true,
             version := some 1 } ∧
    run_db_migrations 2
        { note := some [], note_temp := none, note_index := true, version := some 2 } =
      some { note := some [], note_temp := none, note_index := true,
             version := some 2 } ∧
    latest_migration_version = 3 := by
  decide

/-- **C1**: the row-to-Note mapping of `Storage._load_notes` does NOT
read only the four declared columns: the `SELECT text, category,
room_id, target_user` result row has exactly four cells, yet the code
reads `row[5]` (for `room_id`) and `row[6]` (for `target_user`), both
out of bounds, so loading any row raises `IndexError` and the whole
`_load_notes` call fails. -/
theorem load_reads_out_of_range_columns_cex :
    (rowCells ⟨some "Buy milk", some "shopping", "R1", some "U1"⟩).length = 4 ∧
    (rowCells ⟨some "Buy milk", some "shopping", "R1", some "U1"⟩).get? 5 = none ∧
    (rowCells ⟨some "Buy milk", some "shopping", "R1", some "U1"⟩).get? 6 = none ∧
    load_notes [⟨some "Buy milk", some "shopping", "R1", some "U1"⟩] = none := by
  decide

end MatrixNotesBot
